import Mathlib

/-
Shallow embedding of the state-machine core of a terminal messaging client
(src/app.rs, src/input.rs, src/tui.rs and the event-loop helpers of
src/main.rs).  Rust `usize` counters are modelled as `Nat`; the source uses
`saturating_add`, which coincides with `+ 1` below `2^64`, a bound that is
unreachable because message ids are `i32` and every increment is tied to the
append of a message with a fresh id.  `HashMap` fields are modelled as total
functions with the map's default value (`[]` for message lists, `0` for
badge counters); all reads in the source go through accessors with exactly
those defaults, so the model is observationally faithful.
-/

/-- Mirrors `DialogSummary` from src/telegram.rs. -/
structure DialogSummary where
  id : Int
  title : String
deriving DecidableEq

/-- Mirrors `MessageSummary` from src/telegram.rs (`from` is a Lean keyword,
quoted with guillemets). -/
structure MessageSummary where
  id : Int
  «from» : String
  text : String
  date : String
deriving DecidableEq

/-- Mirrors `TelegramRequest` from src/telegram.rs. -/
inductive TelegramRequest where
  | LoadDialogs
  | LoadMessages (dialog_id : Int) (limit : Nat)
  | SendMessage (dialog_id : Int) (text : String)
  | Shutdown
deriving DecidableEq

/-- Mirrors `FocusArea` from src/app.rs. -/
inductive FocusArea where
  | Chats
  | Messages
  | Input
deriving DecidableEq

/-- Mirrors `SortMode` from src/app.rs. -/
inductive SortMode where
  | Recent
  | Alphabetical
deriving DecidableEq

/-- Mirrors `UiMode` from src/app.rs. -/
inductive UiMode where
  | Normal
  | Compose
  | Search
deriving DecidableEq

/-- Mirrors `AppState` from src/app.rs; the two `HashMap` fields are modelled
as total functions with the default used by the source's accessors. -/
structure AppState where
  dialogs : List DialogSummary
  selected_dialog_id : Option Int
  messages_by_dialog : Int → List MessageSummary
  new_message_count_by_dialog : Int → Nat
  is_loading_dialogs : Bool
  is_loading_messages : Bool
  is_sending_message : Bool
  last_error : Option String
  should_quit : Bool
  focus : FocusArea
  sort_mode : SortMode
  ui_mode : UiMode
  search_query : String
  compose_text : String
  message_scroll_from_bottom : Nat
  pending_new_messages_for_selected : Nat

/-- Point update of a modelled map (`HashMap::insert` / entry mutation). -/
def update_entry {β : Type} (m : Int → β) (key : Int) (value : β) : Int → β :=
  fun x => if x = key then value else m x

/-- Mirrors `AppState::new` (src/app.rs:49-55): default state with
`is_loading_dialogs` set. -/
def AppState.new : AppState :=
  { dialogs := []
    selected_dialog_id := none
    messages_by_dialog := fun _ => []
    new_message_count_by_dialog := fun _ => 0
    is_loading_dialogs := true
    is_loading_messages := false
    is_sending_message := false
    last_error := none
    should_quit := false
    focus := FocusArea.Chats
    sort_mode := SortMode.Recent
    ui_mode := UiMode.Normal
    search_query := ""
    compose_text := ""
    message_scroll_from_bottom := 0
    pending_new_messages_for_selected := 0 }

/-- Whether `needle` occurs at the front of `hay`. -/
def seq_starts_with {α : Type} [DecidableEq α] : List α → List α → Bool
  | [], _ => true
  | _ :: _, [] => false
  | a :: as, b :: bs => a = b && seq_starts_with as bs

/-- Whether `needle` occurs contiguously anywhere in `hay`; models
`str::contains` on the character sequences. -/
def seq_contains {α : Type} [DecidableEq α] (needle : List α) : List α → Bool
  | [] => needle.isEmpty
  | b :: bs => seq_starts_with needle (b :: bs) || seq_contains needle bs

/-- Rust's `str::to_lowercase`, modelled on the character sequence
(`Char.toLower` lower-cases the ASCII range). -/
def rust_lower (s : String) : List Char :=
  s.data.map Char.toLower

/-- Mirrors `AppState::matches_query` (src/app.rs:295-304): case-insensitive
substring match of the search query against the title; empty query matches
all. -/
def matches_query (s : AppState) (dialog : DialogSummary) : Bool :=
  if s.search_query.isEmpty then true
  else seq_contains (rust_lower s.search_query) (rust_lower dialog.title)

/-- Lexicographic comparison of character sequences (Rust's `str::cmp`,
which is codepoint-lexicographic). -/
def char_list_lt : List Char → List Char → Bool
  | [], [] => false
  | [], _ :: _ => true
  | _ :: _, [] => false
  | a :: as, b :: bs =>
    if a < b then true
    else if b < a then false
    else char_list_lt as bs

/-- The strict order of the comparator in `AppState::visible_dialogs`
(src/app.rs:192-197): lower-cased title, ties broken by id. -/
def dialog_lt (a b : DialogSummary) : Bool :=
  if char_list_lt (rust_lower a.title) (rust_lower b.title) then true
  else if char_list_lt (rust_lower b.title) (rust_lower a.title) then false
  else a.id < b.id

/-- Stable insertion used to model the stable `sort_by` of the source:
an element passes everything strictly below it and lands before the first
element not strictly below it, preserving the order of ties. -/
def insert_sorted {α : Type} (lt : α → α → Bool) (a : α) : List α → List α
  | [] => [a]
  | b :: bs => if lt b a then b :: insert_sorted lt a bs else a :: b :: bs

/-- Stable insertion sort; stable sorting by a total preorder is unique, so
this agrees with the source's stable `sort_by`. -/
def insertion_sort {α : Type} (lt : α → α → Bool) : List α → List α
  | [] => []
  | a :: as => insert_sorted lt a (insertion_sort lt as)

/-- Mirrors `AppState::visible_dialogs` (src/app.rs:184-201). -/
def visible_dialogs (s : AppState) : List DialogSummary :=
  let dialogs := s.dialogs.filter (fun dialog => matches_query s dialog)
  if s.sort_mode = SortMode.Alphabetical then insertion_sort dialog_lt dialogs
  else dialogs

/-- Mirrors `AppState::visible_dialog_ids` (src/app.rs:306-311). -/
def visible_dialog_ids (s : AppState) : List Int :=
  (visible_dialogs s).map (fun dialog => dialog.id)

/-- Mirrors `Iterator::position` as used in `select_prev` / `select_next`. -/
def position {α : Type} (p : α → Bool) : List α → Option Nat
  | [] => none
  | a :: as => if p a then some 0 else (position p as).map (fun n => n + 1)

/-- Mirrors `AppState::ensure_selection` (src/app.rs:322-337). -/
def ensure_selection (s : AppState) : AppState :=
  if (visible_dialog_ids s).isEmpty then { s with selected_dialog_id := none }
  else if s.selected_dialog_id.any (fun id => (visible_dialog_ids s).contains id) then s
  else
    { s with
      selected_dialog_id := (visible_dialog_ids s).head?
      message_scroll_from_bottom := 0
      pending_new_messages_for_selected := 0 }

/-- Mirrors `AppState::append_message_if_missing` (src/app.rs:313-320);
`entry(..).or_default()` is the modelled map's default `[]`. -/
def append_message_if_missing (s : AppState) (dialog_id : Int)
    (message : MessageSummary) : AppState × Bool :=
  if (s.messages_by_dialog dialog_id).any (fun existing => existing.id == message.id) then
    (s, false)
  else
    ({ s with
        messages_by_dialog :=
          update_entry s.messages_by_dialog dialog_id
            (s.messages_by_dialog dialog_id ++ [message]) }, true)

/-- Mirrors `AppState::on_dialogs_loaded` (src/app.rs:57-63): replace the
collection, prune badge counters of vanished dialogs (`retain`), clear the
loading flag, re-validate the selection. -/
def on_dialogs_loaded (s : AppState) (dialogs : List DialogSummary) : AppState :=
  ensure_selection
    { s with
      dialogs := dialogs
      new_message_count_by_dialog := fun dialog_id =>
        if dialogs.any (fun dialog => dialog.id == dialog_id) then
          s.new_message_count_by_dialog dialog_id
        else 0
      is_loading_dialogs := false }

/-- Mirrors `AppState::on_messages_loaded` (src/app.rs:65-73). -/
def on_messages_loaded (s : AppState) (dialog_id : Int)
    (messages : List MessageSummary) : AppState :=
  let s1 :=
    { s with
      messages_by_dialog := update_entry s.messages_by_dialog dialog_id messages
      new_message_count_by_dialog := update_entry s.new_message_count_by_dialog dialog_id 0
      is_loading_messages := false }
  if some dialog_id = s1.selected_dialog_id then
    { s1 with message_scroll_from_bottom := 0, pending_new_messages_for_selected := 0 }
  else s1

/-- Mirrors `AppState::on_message_sent` (src/app.rs:75-80). -/
def on_message_sent (s : AppState) (dialog_id : Int)
    (message : MessageSummary) : AppState :=
  let s1 := (append_message_if_missing s dialog_id message).1
  { s1 with is_sending_message := false, compose_text := "", last_error := none }

/-- Mirrors `AppState::on_incoming_message` (src/app.rs:82-99). -/
def on_incoming_message (s : AppState) (dialog_id : Int)
    (message : MessageSummary) : AppState :=
  let s1 := (append_message_if_missing s dialog_id message).1
  if !(append_message_if_missing s dialog_id message).2 then s1
  else if some dialog_id = s1.selected_dialog_id then
    if 0 < s1.message_scroll_from_bottom then
      { s1 with
        pending_new_messages_for_selected := s1.pending_new_messages_for_selected + 1 }
    else s1
  else
    { s1 with
      new_message_count_by_dialog :=
        update_entry s1.new_message_count_by_dialog dialog_id
          (s1.new_message_count_by_dialog dialog_id + 1) }

/-- Mirrors `AppState::dialog_new_message_count` (src/app.rs:101-106). -/
def dialog_new_message_count (s : AppState) (dialog_id : Int) : Nat :=
  s.new_message_count_by_dialog dialog_id

/-- Mirrors `AppState::select_prev` (src/app.rs:128-154). -/
def select_prev (s : AppState) : AppState × Bool :=
  if (visible_dialog_ids s).isEmpty then (s, false)
  else
    match s.selected_dialog_id with
    | none =>
      ({ s with
          selected_dialog_id := (visible_dialog_ids s).head?
          pending_new_messages_for_selected := 0 }, true)
    | some current_id =>
      match position (fun id => id == current_id) (visible_dialog_ids s) with
      | none =>
        ({ s with
            selected_dialog_id := (visible_dialog_ids s).head?
            pending_new_messages_for_selected := 0 }, true)
      | some pos =>
        if pos = 0 then (s, false)
        else
          ({ s with
              selected_dialog_id := (visible_dialog_ids s)[pos - 1]?
              message_scroll_from_bottom := 0
              pending_new_messages_for_selected := 0 }, true)

/-- Mirrors `AppState::select_next` (src/app.rs:156-182). -/
def select_next (s : AppState) : AppState × Bool :=
  if (visible_dialog_ids s).isEmpty then (s, false)
  else
    match s.selected_dialog_id with
    | none =>
      ({ s with
          selected_dialog_id := (visible_dialog_ids s).head?
          pending_new_messages_for_selected := 0 }, true)
    | some current_id =>
      match position (fun id => id == current_id) (visible_dialog_ids s) with
      | none =>
        ({ s with
            selected_dialog_id := (visible_dialog_ids s).head?
            pending_new_messages_for_selected := 0 }, true)
      | some pos =>
        if (visible_dialog_ids s).length ≤ pos + 1 then (s, false)
        else
          ({ s with
              selected_dialog_id := (visible_dialog_ids s)[pos + 1]?
              message_scroll_from_bottom := 0
              pending_new_messages_for_selected := 0 }, true)

/-- Mirrors `AppState::focus_next` (src/app.rs:210-216). -/
def focus_next (s : AppState) : AppState :=
  { s with
    focus :=
      match s.focus with
      | FocusArea.Chats => FocusArea.Messages
      | FocusArea.Messages => FocusArea.Input
      | FocusArea.Input => FocusArea.Chats }

/-- Mirrors `AppState::focus_prev` (src/app.rs:218-224). -/
def focus_prev (s : AppState) : AppState :=
  { s with
    focus :=
      match s.focus with
      | FocusArea.Chats => FocusArea.Input
      | FocusArea.Messages => FocusArea.Chats
      | FocusArea.Input => FocusArea.Messages }

/-- Mirrors `AppState::enter_compose` (src/app.rs:226-229). -/
def enter_compose (s : AppState) : AppState :=
  { s with ui_mode := UiMode.Compose, focus := FocusArea.Input }

/-- Mirrors `AppState::exit_compose` (src/app.rs:231-233). -/
def exit_compose (s : AppState) : AppState :=
  { s with ui_mode := UiMode.Normal }

/-- Mirrors `AppState::start_search` (src/app.rs:235-238). -/
def start_search (s : AppState) : AppState :=
  { s with ui_mode := UiMode.Search, focus := FocusArea.Chats }

/-- Mirrors `AppState::exit_or_clear_search` (src/app.rs:240-248): note the
source sets `ui_mode` to `Normal` in both branches. -/
def exit_or_clear_search (s : AppState) : AppState :=
  if s.search_query.isEmpty then { s with ui_mode := UiMode.Normal }
  else
    ensure_selection { s with search_query := "", ui_mode := UiMode.Normal }

/-- Mirrors `AppState::toggle_sort_mode` (src/app.rs:250-256). -/
def toggle_sort_mode (s : AppState) : AppState :=
  ensure_selection
    { s with
      sort_mode :=
        match s.sort_mode with
        | SortMode.Recent => SortMode.Alphabetical
        | SortMode.Alphabetical => SortMode.Recent }

/-- Mirrors `AppState::insert_char` (src/app.rs:258-267). -/
def insert_char (s : AppState) (ch : Char) : AppState :=
  match s.ui_mode with
  | UiMode.Compose => { s with compose_text := s.compose_text.push ch }
  | UiMode.Search => ensure_selection { s with search_query := s.search_query.push ch }
  | UiMode.Normal => s

/-- Mirrors `AppState::backspace` (src/app.rs:269-280); `String::pop`
removes the last character. -/
def backspace (s : AppState) : AppState :=
  match s.ui_mode with
  | UiMode.Compose => { s with compose_text := s.compose_text.dropRight 1 }
  | UiMode.Search => ensure_selection { s with search_query := s.search_query.dropRight 1 }
  | UiMode.Normal => s

/-- Mirrors `AppState::scroll_messages_up` (src/app.rs:282-284). -/
def scroll_messages_up (s : AppState) : AppState :=
  { s with message_scroll_from_bottom := s.message_scroll_from_bottom + 1 }

/-- Mirrors `AppState::scroll_messages_down` (src/app.rs:286-293). -/
def scroll_messages_down (s : AppState) : AppState :=
  if 0 < s.message_scroll_from_bottom then
    if s.message_scroll_from_bottom - 1 = 0 then
      { s with
        message_scroll_from_bottom := s.message_scroll_from_bottom - 1
        pending_new_messages_for_selected := 0 }
    else { s with message_scroll_from_bottom := s.message_scroll_from_bottom - 1 }
  else s

/-- Mirrors crossterm's `KeyEventKind` as consumed by src/input.rs. -/
inductive KeyEventKind where
  | Press
  | Release
  | Repeat
deriving DecidableEq

/-- Mirrors the subset of crossterm's `KeyCode` consumed by src/input.rs;
`Other` stands for every unhandled variant (the `_` arm). -/
inductive KeyCode where
  | Tab
  | BackTab
  | Up
  | Down
  | Enter
  | Backspace
  | Esc
  | Char (ch : Char)
  | Other
deriving DecidableEq

/-- Mirrors crossterm's `KeyEvent` in the fields src/input.rs reads. -/
structure KeyEvent where
  code : KeyCode
  kind : KeyEventKind
deriving DecidableEq

/-- Mirrors `AppCommand` from src/input.rs. -/
inductive AppCommand where
  | MoveUp
  | MoveDown
  | ScrollMessagesUp
  | ScrollMessagesDown
  | FocusNext
  | FocusPrev
  | EnterCompose
  | ExitComposeOrSearch
  | SubmitMessage
  | StartSearch
  | ToggleSortMode
  | Backspace
  | InsertChar (ch : Char)
  | Quit
  | None
deriving DecidableEq

/-- Mirrors `QUIT_HOTKEYS` (src/input.rs:24). -/
def QUIT_HOTKEYS : List Char := ['q', 'й']

/-- Mirrors `COMPOSE_HOTKEYS` (src/input.rs:25). -/
def COMPOSE_HOTKEYS : List Char := ['i', 'ш']

/-- Mirrors `SORT_HOTKEYS` (src/input.rs:26). -/
def SORT_HOTKEYS : List Char := ['s', 'ы']

/-- Mirrors `SEARCH_HOTKEYS` (src/input.rs:27). -/
def SEARCH_HOTKEYS : List Char := ['/', '.']

/-- Mirrors `is_hotkey_char` (src/input.rs:45-50); Rust's
`to_ascii_lowercase` is `Char.toLower` (both lower-case ASCII only). -/
def is_hotkey_char (key : KeyEvent) (hotkeys : List Char) : Bool :=
  match key.code with
  | KeyCode.Char ch => hotkeys.contains ch.toLower
  | _ => false

/-- Mirrors `is_quit_hotkey` (src/input.rs:29-31). -/
def is_quit_hotkey (key : KeyEvent) : Bool :=
  is_hotkey_char key QUIT_HOTKEYS

/-- Mirrors `is_compose_hotkey` (src/input.rs:33-35). -/
def is_compose_hotkey (key : KeyEvent) : Bool :=
  is_hotkey_char key COMPOSE_HOTKEYS

/-- Mirrors `is_sort_hotkey` (src/input.rs:37-39). -/
def is_sort_hotkey (key : KeyEvent) : Bool :=
  is_hotkey_char key SORT_HOTKEYS

/-- Mirrors `is_search_hotkey` (src/input.rs:41-43). -/
def is_search_hotkey (key : KeyEvent) : Bool :=
  is_hotkey_char key SEARCH_HOTKEYS

/-- Mirrors `map_key_event` (src/input.rs:52-97): the guarded `Char(_)`
match arms become an if-chain in source order. -/
def map_key_event (key : KeyEvent) (ui_mode : UiMode) (focus : FocusArea) : AppCommand :=
  if key.kind ≠ KeyEventKind.Press then AppCommand.None
  else if key.code = KeyCode.BackTab then AppCommand.FocusPrev
  else
    match key.code with
    | KeyCode.Tab => AppCommand.FocusNext
    | KeyCode.Up =>
      match focus with
      | FocusArea.Chats => AppCommand.MoveUp
      | FocusArea.Messages => AppCommand.ScrollMessagesUp
      | FocusArea.Input => AppCommand.None
    | KeyCode.Down =>
      match focus with
      | FocusArea.Chats => AppCommand.MoveDown
      | FocusArea.Messages => AppCommand.ScrollMessagesDown
      | FocusArea.Input => AppCommand.None
    | KeyCode.Enter =>
      if ui_mode = UiMode.Compose then AppCommand.SubmitMessage else AppCommand.None
    | KeyCode.Backspace => AppCommand.Backspace
    | KeyCode.Esc => AppCommand.ExitComposeOrSearch
    | KeyCode.Char ch =>
      if is_search_hotkey key ∧ ui_mode ≠ UiMode.Compose then AppCommand.StartSearch
      else if is_sort_hotkey key ∧ focus = FocusArea.Chats ∧ ui_mode ≠ UiMode.Compose then
        AppCommand.ToggleSortMode
      else if is_compose_hotkey key ∧ ui_mode ≠ UiMode.Search then AppCommand.EnterCompose
      else if is_quit_hotkey key ∧ ui_mode = UiMode.Normal then AppCommand.Quit
      else AppCommand.InsertChar ch
    | _ => AppCommand.None

/-- Rust's `usize::div_ceil` for a positive divisor. -/
def nat_div_ceil (a b : Nat) : Nat :=
  (a + b - 1) / b

/-- Rust's `str::split(sep)` on the character sequence: splits at every
separator, keeping empty segments (`""` yields one empty segment). -/
def split_segments (sep : Char) : List Char → List (List Char)
  | [] => [[]]
  | c :: cs =>
    if c = sep then [] :: split_segments sep cs
    else
      match split_segments sep cs with
      | [] => [[c]]
      | seg :: segs => (c :: seg) :: segs

/-- Mirrors `wrapped_line_count` (src/tui.rs:279-291): split on explicit
breaks; each segment contributes `ceil(chars / width)` rows, minimum 1. -/
def wrapped_line_count (line : String) (width : Nat) : Nat :=
  if width = 0 then 0
  else
    ((split_segments '\n' line.data).map
      (fun segment => max (nat_div_ceil segment.length width) 1)).sum

/-- Mirrors `total_wrapped_line_count` (src/tui.rs:268-277). -/
def total_wrapped_line_count (lines : List String) (width : Nat) : Nat :=
  if width = 0 then 0
  else (lines.map (fun line => wrapped_line_count line width)).sum

/-- Mirrors `message_top_offset` (src/tui.rs:293-300); `Nat` subtraction is
Rust's `saturating_sub`. -/
def message_top_offset (total_lines viewport_height scroll_from_bottom : Nat) : Nat :=
  let max_top_offset := total_lines - viewport_height
  max_top_offset - min scroll_from_bottom max_top_offset

/-- Worded after the spec (§4.4, C2): total rows of the transcript, written
out directly from the spec's formula. -/
def spec_total_rows (lines : List String) (width : Nat) : Nat :=
  if width = 0 then 0
  else
    (lines.map (fun line =>
      ((split_segments '\n' line.data).map
        (fun segment => max ((segment.length + width - 1) / width) 1)).sum)).sum

/-- Worded after the spec (§4.4, C2): the displayed top row on integers,
`max(0, total - height) - min(offset, max(0, total - height))`. -/
def spec_display_top (total_rows viewport_height scroll_offset : Int) : Int :=
  max 0 (total_rows - viewport_height)
    - min scroll_offset (max 0 (total_rows - viewport_height))

/-- Rust's `str::trim` on the character sequence: drop whitespace from both
ends. -/
def rust_trim (cs : List Char) : List Char :=
  ((cs.dropWhile Char.isWhitespace).reverse.dropWhile Char.isWhitespace).reverse

/-- Mirrors `request_send_message` (src/main.rs:318-343).  The async channel
send is modelled as succeeding; its failure arm (src/main.rs:336-342) is an
environment fault outside the embedded state machine.  The second component
is the request handed to the backend, if any. -/
def request_send_message (s : AppState) : AppState × Option TelegramRequest :=
  if s.is_sending_message then (s, none)
  else
    match s.selected_dialog_id with
    | none => ({ s with last_error := some "No chat selected" }, none)
    | some dialog_id =>
      if (rust_trim s.compose_text.data).isEmpty then
        ({ s with last_error := some "Message must not be empty" }, none)
      else
        ({ s with is_sending_message := true, last_error := none },
          some (TelegramRequest.SendMessage dialog_id ⟨rust_trim s.compose_text.data⟩))

/-- Mirrors the `MessagesLoaded` arm of the event loop (src/main.rs:148-152):
the event is applied only when its dialog is the selected one. -/
def handle_messages_loaded (s : AppState) (dialog_id : Int)
    (messages : List MessageSummary) : AppState :=
  if some dialog_id = s.selected_dialog_id then on_messages_loaded s dialog_id messages
  else s

/-- One StateStore operation (the public mutating methods of `AppState`). -/
inductive Op where
  | dialogsLoaded (dialogs : List DialogSummary)
  | messagesLoaded (dialog_id : Int) (messages : List MessageSummary)
  | messageSent (dialog_id : Int) (message : MessageSummary)
  | incomingMessage (dialog_id : Int) (message : MessageSummary)
  | selectPrev
  | selectNext
  | focusNext
  | focusPrev
  | enterCompose
  | exitCompose
  | startSearch
  | exitOrClearSearch
  | toggleSortMode
  | insertChar (ch : Char)
  | backspaceKey
  | scrollUp
  | scrollDown

/-- Applies one StateStore operation. -/
def apply_op : Op → AppState → AppState
  | Op.dialogsLoaded dialogs, s => on_dialogs_loaded s dialogs
  | Op.messagesLoaded dialog_id messages, s => on_messages_loaded s dialog_id messages
  | Op.messageSent dialog_id message, s => on_message_sent s dialog_id message
  | Op.incomingMessage dialog_id message, s => on_incoming_message s dialog_id message
  | Op.selectPrev, s => (select_prev s).1
  | Op.selectNext, s => (select_next s).1
  | Op.focusNext, s => focus_next s
  | Op.focusPrev, s => focus_prev s
  | Op.enterCompose, s => enter_compose s
  | Op.exitCompose, s => exit_compose s
  | Op.startSearch, s => start_search s
  | Op.exitOrClearSearch, s => exit_or_clear_search s
  | Op.toggleSortMode, s => toggle_sort_mode s
  | Op.insertChar ch, s => insert_char s ch
  | Op.backspaceKey, s => backspace s
  | Op.scrollUp, s => scroll_messages_up s
  | Op.scrollDown, s => scroll_messages_down s

/-- States reachable from `AppState.new` by StateStore operations. -/
inductive Reachable : AppState → Prop where
  | init : Reachable AppState.new
  | step (s : AppState) (op : Op) : Reachable s → Reachable (apply_op op s)

/-- The selection invariant (spec §3, C6): the selected id is present in the
visible view, or absent exactly when that view is empty. -/
def selection_invariant (s : AppState) : Prop :=
  match s.selected_dialog_id with
  | some id => id ∈ visible_dialog_ids s
  | none => visible_dialog_ids s = []

/-- The pending/scroll invariant (C8): a positive pending indicator implies
a positive scroll offset. -/
def pending_scroll_invariant (s : AppState) : Prop :=
  0 < s.pending_new_messages_for_selected → 0 < s.message_scroll_from_bottom

/-- Concrete state used to exhibit the one-step behavior of
`exit_or_clear_search`. -/
def c4_state : AppState :=
  { AppState.new with ui_mode := UiMode.Search, search_query := "b" }

/-- Concrete state (no selection, scrolled up) used to exhibit that a snap
of `select_next` does not reset the scroll offset. -/
def c5_state : AppState :=
  { AppState.new with
      dialogs := [⟨1, "a"⟩]
      message_scroll_from_bottom := 5 }

section SanityChecks

example : visible_dialog_ids AppState.new = [] := rfl

example :
    (select_next { AppState.new with dialogs := [⟨1, "a"⟩, ⟨2, "b"⟩] }).2 = true := by
  decide

example :
    (select_prev
      { AppState.new with dialogs := [⟨1, "a"⟩, ⟨2, "b"⟩], selected_dialog_id := some 1 }).2
      = false := by
  decide

example :
    map_key_event ⟨KeyCode.Char 'i', KeyEventKind.Press⟩ UiMode.Compose FocusArea.Input
      = AppCommand.EnterCompose := by
  decide

example :
    map_key_event ⟨KeyCode.Char 's', KeyEventKind.Press⟩ UiMode.Search FocusArea.Chats
      = AppCommand.ToggleSortMode := by
  decide

example :
    map_key_event ⟨KeyCode.Char 'q', KeyEventKind.Press⟩ UiMode.Search FocusArea.Chats
      = AppCommand.InsertChar 'q' := by
  decide

example : (exit_or_clear_search c4_state).ui_mode = UiMode.Normal := by decide

example :
    (select_next c5_state).2 = true
      ∧ (select_next c5_state).1.message_scroll_from_bottom = 5 := by
  decide

example : total_wrapped_line_count ["ab\ncdef"] 2 = 3 := by decide

example : message_top_offset 10 4 0 = 6 ∧ message_top_offset 10 4 2 = 4
    ∧ message_top_offset 10 4 100 = 0 ∧ message_top_offset 3 10 0 = 0 := by
  decide

end SanityChecks

/-- Fields of `ensure_selection`'s result other than the selection, scroll
offset and pending indicator are those of its argument. -/
theorem ensure_selection_preserves (s : AppState) :
    (ensure_selection s).search_query = s.search_query
    ∧ (ensure_selection s).ui_mode = s.ui_mode
    ∧ (ensure_selection s).dialogs = s.dialogs
    ∧ (ensure_selection s).sort_mode = s.sort_mode
    ∧ (ensure_selection s).focus = s.focus
    ∧ (ensure_selection s).messages_by_dialog = s.messages_by_dialog
    ∧ (ensure_selection s).new_message_count_by_dialog = s.new_message_count_by_dialog
    ∧ (ensure_selection s).compose_text = s.compose_text
    ∧ (ensure_selection s).is_sending_message = s.is_sending_message
    ∧ (ensure_selection s).last_error = s.last_error := by
  unfold ensure_selection
  repeat' split
  all_goals simp

/-- Claim C2: each logical line splits on explicit breaks, each segment
contributes `ceil(chars / width)` rows with a minimum of 1 (width 0 gives
0 total rows); the displayed top row is
`max(0, total - height) - min(offset, max(0, total - height))`; offset 0
bottom-anchors the viewport and larger offsets are clamped at the top. -/
theorem wrapped_viewport_spec (lines : List String) (width : Nat)
    (total_lines viewport_height scroll_from_bottom : Nat) :
    total_wrapped_line_count lines width = spec_total_rows lines width
    ∧ (message_top_offset total_lines viewport_height scroll_from_bottom : Int)
        = spec_display_top total_lines viewport_height scroll_from_bottom
    ∧ message_top_offset total_lines viewport_height 0
        = total_lines - viewport_height
    ∧ (total_lines - viewport_height ≤ scroll_from_bottom →
        message_top_offset total_lines viewport_height scroll_from_bottom = 0) := by
  refine ⟨?_, ?_, ?_, fun h => ?_⟩
  · by_cases h : width = 0 <;>
      simp [total_wrapped_line_count, spec_total_rows, wrapped_line_count, nat_div_ceil, h]
  · simp only [message_top_offset, spec_display_top]
    omega
  · simp only [message_top_offset]
    omega
  · simp only [message_top_offset]
    omega

/-- Witness for the clamping clause of `wrapped_viewport_spec` at the
spec's own example `total=10, height=4, offset=100`. -/
theorem wrapped_viewport_spec_witness :
    10 - 4 ≤ 100 ∧ message_top_offset 10 4 100 = 0 :=
  ⟨by decide, (wrapped_viewport_spec [] 0 10 4 100).2.2.2 (by decide)⟩

/-- Claim C9: a `MessagesLoaded` event is applied only when its dialog is
the selected one; for any other dialog the state is unchanged — the
stored list is not replaced and the badge counter is not cleared. -/
theorem handle_messages_loaded_spec (s : AppState) (dialog_id : Int)
    (messages : List MessageSummary) :
    (some dialog_id = s.selected_dialog_id →
      handle_messages_loaded s dialog_id messages
        = on_messages_loaded s dialog_id messages)
    ∧ (some dialog_id ≠ s.selected_dialog_id →
      handle_messages_loaded s dialog_id messages = s
      ∧ (handle_messages_loaded s dialog_id messages).messages_by_dialog dialog_id
          = s.messages_by_dialog dialog_id
      ∧ dialog_new_message_count (handle_messages_loaded s dialog_id messages) dialog_id
          = dialog_new_message_count s dialog_id) := by
  constructor
  · intro h
    simp [handle_messages_loaded, h]
  · intro h
    simp [handle_messages_loaded, h]

/-- Witness for `handle_messages_loaded_spec`: a `MessagesLoaded` event for
dialog 1 while nothing is selected leaves the state unchanged. -/
theorem handle_messages_loaded_spec_witness :
    some 1 ≠ AppState.new.selected_dialog_id
    ∧ handle_messages_loaded AppState.new 1 [] = AppState.new :=
  ⟨by decide, ((handle_messages_loaded_spec AppState.new 1 []).2 (by decide)).1⟩

/-- Claim C10: a Submit while a send is in flight is a complete no-op:
no validation, no error, no request, no state change. -/
theorem request_send_message_busy (s : AppState)
    (h : s.is_sending_message = true) :
    request_send_message s = (s, none) := by
  simp [request_send_message, h]

/-- Concrete state with a send in flight. -/
def c10_state : AppState :=
  { AppState.new with is_sending_message := true }

/-- Witness for `request_send_message_busy`. -/
theorem request_send_message_busy_witness :
    c10_state.is_sending_message = true
    ∧ request_send_message c10_state = (c10_state, none) :=
  ⟨rfl, request_send_message_busy c10_state rfl⟩

/-- Claim C7: with no send in flight, Submit with no selection or blank
compose text sets a local error, issues no request and leaves the sending
flag unset; with both validations passing it sets the sending flag, clears
the error and issues exactly one send request with the trimmed text. -/
theorem request_send_message_spec (s : AppState)
    (hns : s.is_sending_message = false) :
    (s.selected_dialog_id = none →
      request_send_message s = ({ s with last_error := some "No chat selected" }, none)
      ∧ (request_send_message s).1.is_sending_message = false
      ∧ (request_send_message s).2 = none)
    ∧ (∀ dialog_id, s.selected_dialog_id = some dialog_id →
        ((rust_trim s.compose_text.data).isEmpty = true →
          request_send_message s
            = ({ s with last_error := some "Message must not be empty" }, none)
          ∧ (request_send_message s).1.is_sending_message = false
          ∧ (request_send_message s).2 = none)
        ∧ ((rust_trim s.compose_text.data).isEmpty = false →
          request_send_message s
            = ({ s with is_sending_message := true, last_error := none },
                some (TelegramRequest.SendMessage dialog_id
                  ⟨rust_trim s.compose_text.data⟩)))) := by
  constructor
  · intro h
    simp [request_send_message, hns, h]
  · intro dialog_id h
    constructor
    · intro he
      simp [request_send_message, hns, h, he]
    · intro he
      simp [request_send_message, hns, h, he]

/-- Concrete state for the Submit success path. -/
def c7_state : AppState :=
  { AppState.new with
      dialogs := [⟨1, "a"⟩]
      selected_dialog_id := some 1
      compose_text := " hi " }

/-- Witness for `request_send_message_spec` on the success path: the
request carries the trimmed text. -/
theorem request_send_message_spec_witness :
    c7_state.is_sending_message = false
    ∧ c7_state.selected_dialog_id = some 1
    ∧ (rust_trim c7_state.compose_text.data).isEmpty = false
    ∧ request_send_message c7_state
        = ({ c7_state with is_sending_message := true, last_error := none },
            some (TelegramRequest.SendMessage 1 ⟨rust_trim c7_state.compose_text.data⟩)) :=
  ⟨rfl, rfl, by decide,
    ((request_send_message_spec c7_state rfl).2 1 rfl).2 (by decide)⟩

/-- Counterexample to claim C3 as stated: in Compose mode the compose
hotkey character is not inserted literally but re-enters Compose, and in
Search mode with Chats focus the sort hotkey character toggles the sort
mode instead of extending the query. -/
theorem map_key_event_c3_counterexample :
    map_key_event ⟨KeyCode.Char 'i', KeyEventKind.Press⟩ UiMode.Compose FocusArea.Input
      = AppCommand.EnterCompose
    ∧ map_key_event ⟨KeyCode.Char 'i', KeyEventKind.Press⟩ UiMode.Compose FocusArea.Input
      ≠ AppCommand.InsertChar 'i'
    ∧ map_key_event ⟨KeyCode.Char 's', KeyEventKind.Press⟩ UiMode.Search FocusArea.Chats
      = AppCommand.ToggleSortMode
    ∧ map_key_event ⟨KeyCode.Char 's', KeyEventKind.Press⟩ UiMode.Search FocusArea.Chats
      ≠ AppCommand.InsertChar 's' := by
  decide

/-- Claim C3 as amended: in Compose mode character keys are literal text
except the compose hotkey characters, which yield EnterCompose; in Search
mode character keys are literal text except the search hotkeys (StartSearch)
and the sort hotkeys with Chats focus (ToggleSortMode) — in particular the
compose and quit hotkey characters are inserted; ToggleSortMode is only
ever produced with Chats focus. -/
theorem map_key_event_literal_modes (ch : Char) (focus : FocusArea) :
    (map_key_event ⟨KeyCode.Char ch, KeyEventKind.Press⟩ UiMode.Compose focus
      = if COMPOSE_HOTKEYS.contains ch.toLower then AppCommand.EnterCompose
        else AppCommand.InsertChar ch)
    ∧ (map_key_event ⟨KeyCode.Char ch, KeyEventKind.Press⟩ UiMode.Search focus
      = if SEARCH_HOTKEYS.contains ch.toLower then AppCommand.StartSearch
        else if SORT_HOTKEYS.contains ch.toLower ∧ focus = FocusArea.Chats then
          AppCommand.ToggleSortMode
        else AppCommand.InsertChar ch)
    ∧ (∀ (key : KeyEvent) (ui_mode : UiMode),
        map_key_event key ui_mode focus = AppCommand.ToggleSortMode →
          focus = FocusArea.Chats) := by
  refine ⟨?_, ?_, ?_⟩
  · simp [map_key_event, is_search_hotkey, is_sort_hotkey, is_compose_hotkey,
      is_quit_hotkey, is_hotkey_char]
  · simp [map_key_event, is_search_hotkey, is_sort_hotkey, is_compose_hotkey,
      is_quit_hotkey, is_hotkey_char]
  · intro key ui_mode h
    unfold map_key_event at h
    repeat' split at h
    all_goals simp_all

/-- Witness for `map_key_event_literal_modes`: the sort hotkey with Chats
focus in Search mode toggles the sort mode. -/
theorem map_key_event_literal_modes_witness :
    map_key_event ⟨KeyCode.Char 's', KeyEventKind.Press⟩ UiMode.Search FocusArea.Chats
      = AppCommand.ToggleSortMode
    ∧ FocusArea.Chats = FocusArea.Chats :=
  ⟨by decide,
    (map_key_event_literal_modes 's' FocusArea.Chats).2.2
      ⟨KeyCode.Char 's', KeyEventKind.Press⟩ UiMode.Search (by decide)⟩

/-- Counterexample to claim C4 as stated: one invocation of
`exit_or_clear_search` with a non-empty query both clears the query and
leaves Search mode. -/
theorem exit_search_counterexample :
    c4_state.search_query ≠ ""
    ∧ c4_state.ui_mode = UiMode.Search
    ∧ (exit_or_clear_search c4_state).ui_mode = UiMode.Normal
    ∧ (exit_or_clear_search c4_state).search_query = "" := by
  refine ⟨by decide, rfl, by decide, by decide⟩

/-- Claim C4 as amended: exiting search is single-step — with a non-empty
query `exit_or_clear_search` clears the query, re-validates the selection
and returns to Normal mode; with an empty query it just returns to Normal
mode. -/
theorem exit_or_clear_search_spec (s : AppState) :
    (s.search_query = "" →
      exit_or_clear_search s = { s with ui_mode := UiMode.Normal })
    ∧ (s.search_query ≠ "" →
      exit_or_clear_search s
        = ensure_selection { s with search_query := "", ui_mode := UiMode.Normal }
      ∧ (exit_or_clear_search s).search_query = ""
      ∧ (exit_or_clear_search s).ui_mode = UiMode.Normal) := by
  constructor
  · intro h
    simp [exit_or_clear_search, String.isEmpty_iff, h]
  · intro h
    have hne : s.search_query.isEmpty = false := by
      cases he : s.search_query.isEmpty
      · rfl
      · exact absurd ((String.isEmpty_iff s.search_query).mp he) h
    refine ⟨by simp [exit_or_clear_search, hne], ?_, ?_⟩
    · simp only [exit_or_clear_search, hne, Bool.false_eq_true, if_false]
      exact (ensure_selection_preserves _).1
    · simp only [exit_or_clear_search, hne, Bool.false_eq_true, if_false]
      exact (ensure_selection_preserves _).2.1

/-- Witness for `exit_or_clear_search_spec` at a state with query `"b"`. -/
theorem exit_or_clear_search_spec_witness :
    c4_state.search_query ≠ ""
    ∧ (exit_or_clear_search c4_state).search_query = ""
    ∧ (exit_or_clear_search c4_state).ui_mode = UiMode.Normal :=
  ⟨by decide, ((exit_or_clear_search_spec c4_state).2 (by decide)).2⟩

/-- Claim C1: `on_incoming_message` appends only when the id is new (a
duplicate leaves the whole state unchanged); a fresh append for the
selected dialog with positive scroll offset bumps exactly the pending
indicator; for the selected dialog at the bottom no counter changes; for
any other dialog exactly that dialog's badge counter is bumped.  The
scroll offset is never changed. -/
theorem on_incoming_message_spec (s : AppState) (dialog_id : Int)
    (message : MessageSummary) :
    ((s.messages_by_dialog dialog_id).any
        (fun existing => existing.id == message.id) = true →
      on_incoming_message s dialog_id message = s)
    ∧ ((s.messages_by_dialog dialog_id).any
        (fun existing => existing.id == message.id) = false →
      (on_incoming_message s dialog_id message).messages_by_dialog dialog_id
        = s.messages_by_dialog dialog_id ++ [message]
      ∧ (∀ d, d ≠ dialog_id →
          (on_incoming_message s dialog_id message).messages_by_dialog d
            = s.messages_by_dialog d)
      ∧ (some dialog_id = s.selected_dialog_id →
          (0 < s.message_scroll_from_bottom →
            (on_incoming_message s dialog_id message).pending_new_messages_for_selected
              = s.pending_new_messages_for_selected + 1
            ∧ (on_incoming_message s dialog_id message).new_message_count_by_dialog
              = s.new_message_count_by_dialog)
          ∧ (s.message_scroll_from_bottom = 0 →
            (on_incoming_message s dialog_id message).pending_new_messages_for_selected
              = s.pending_new_messages_for_selected
            ∧ (on_incoming_message s dialog_id message).new_message_count_by_dialog
              = s.new_message_count_by_dialog))
      ∧ (some dialog_id ≠ s.selected_dialog_id →
          dialog_new_message_count (on_incoming_message s dialog_id message) dialog_id
            = dialog_new_message_count s dialog_id + 1
          ∧ (∀ d, d ≠ dialog_id →
              (on_incoming_message s dialog_id message).new_message_count_by_dialog d
                = s.new_message_count_by_dialog d)
          ∧ (on_incoming_message s dialog_id message).pending_new_messages_for_selected
            = s.pending_new_messages_for_selected)
      ∧ (on_incoming_message s dialog_id message).message_scroll_from_bottom
          = s.message_scroll_from_bottom) := by
  constructor
  · intro h
    simp [on_incoming_message, append_message_if_missing, h]
  · intro h
    refine ⟨?_, ?_, ?_, ?_, ?_⟩
    · by_cases hsel : some dialog_id = s.selected_dialog_id
      · by_cases hscroll : 0 < s.message_scroll_from_bottom <;>
          simp [on_incoming_message, append_message_if_missing, h, hsel, hscroll,
            update_entry]
      · simp [on_incoming_message, append_message_if_missing, h, hsel, update_entry]
    · intro d hd
      by_cases hsel : some dialog_id = s.selected_dialog_id
      · by_cases hscroll : 0 < s.message_scroll_from_bottom <;>
          simp [on_incoming_message, append_message_if_missing, h, hsel, hscroll,
            update_entry, hd]
      · simp [on_incoming_message, append_message_if_missing, h, hsel, update_entry, hd]
    · intro hsel
      constructor
      · intro hscroll
        simp [on_incoming_message, append_message_if_missing, h, hsel, hscroll]
      · intro hscroll
        simp [on_incoming_message, append_message_if_missing, h, hsel, hscroll]
    · intro hsel
      simp [on_incoming_message, append_message_if_missing, h, hsel, update_entry,
        dialog_new_message_count]
      intro d hd
      simp [hd]
    · by_cases hsel : some dialog_id = s.selected_dialog_id
      · by_cases hscroll : 0 < s.message_scroll_from_bottom <;>
          simp [on_incoming_message, append_message_if_missing, h, hsel, hscroll]
      · simp [on_incoming_message, append_message_if_missing, h, hsel]

/-- Concrete state for the incoming-message witness: dialog 1 selected,
one stored message, viewport scrolled up by one. -/
def c1_state : AppState :=
  { AppState.new with
      dialogs := [⟨1, "a"⟩, ⟨2, "b"⟩]
      selected_dialog_id := some 1
      messages_by_dialog := update_entry (fun _ => []) 1 [⟨1, "x", "first", "now"⟩]
      message_scroll_from_bottom := 1 }

/-- The incoming message used by the witness. -/
def c1_message : MessageSummary := ⟨10, "x", "hello", "now"⟩

/-- Witness for `on_incoming_message_spec`: a fresh message for the
selected, scrolled-up dialog bumps exactly the pending indicator. -/
theorem on_incoming_message_spec_witness :
    (c1_state.messages_by_dialog 1).any
        (fun existing => existing.id == c1_message.id) = false
    ∧ some 1 = c1_state.selected_dialog_id
    ∧ 0 < c1_state.message_scroll_from_bottom
    ∧ (on_incoming_message c1_state 1 c1_message).pending_new_messages_for_selected
        = c1_state.pending_new_messages_for_selected + 1 :=
  ⟨by decide, rfl, by decide,
    ((((on_incoming_message_spec c1_state 1 c1_message).2 (by decide)).2.2.1 rfl).1
      (by decide)).1⟩

/-- `position` finds an index inside the list. -/
theorem position_lt_length {α : Type} (p : α → Bool) :
    ∀ (l : List α) (i : Nat), position p l = some i → i < l.length := by
  intro l
  induction l with
  | nil =>
    intro i h
    simp [position] at h
  | cons a as ih =>
    intro i h
    simp only [position] at h
    by_cases hp : p a = true
    · rw [if_pos hp] at h
      simp at h
      simp [← h]
    · rw [if_neg hp] at h
      cases hpos : position p as with
      | none =>
        rw [hpos] at h
        simp at h
      | some j =>
        rw [hpos] at h
        simp at h
        have := ih j hpos
        simp [List.length_cons]
        omega

/-- `position` of an absent element is `none`. -/
theorem position_eq_none_of_not_mem {l : List Int} {id : Int}
    (h : id ∉ l) : position (fun x => x == id) l = none := by
  induction l with
  | nil => rfl
  | cons a as ih =>
    simp only [List.mem_cons] at h
    push_neg at h
    simp [position, ih h.2, beq_iff_eq, Ne.symm h.1]

/-- Claim C5 as amended: both selectors act on the visible id sequence;
with no selection, or a selection absent from it, they snap to the first
visible id and report a change, resetting the pending indicator but
leaving the scroll offset untouched; from a position inside the sequence
they move one step, resetting both the scroll offset and the pending
indicator, and are unchanged-state no-ops at their respective edges or
when nothing is visible. -/
theorem select_spec (s : AppState) :
    (visible_dialog_ids s = [] →
      select_prev s = (s, false) ∧ select_next s = (s, false))
    ∧ (visible_dialog_ids s ≠ [] → s.selected_dialog_id = none →
      select_prev s
        = ({ s with
              selected_dialog_id := (visible_dialog_ids s).head?
              pending_new_messages_for_selected := 0 }, true)
      ∧ select_next s
        = ({ s with
              selected_dialog_id := (visible_dialog_ids s).head?
              pending_new_messages_for_selected := 0 }, true))
    ∧ (∀ id, visible_dialog_ids s ≠ [] → s.selected_dialog_id = some id →
        id ∉ visible_dialog_ids s →
        select_prev s
          = ({ s with
                selected_dialog_id := (visible_dialog_ids s).head?
                pending_new_messages_for_selected := 0 }, true)
        ∧ select_next s
          = ({ s with
                selected_dialog_id := (visible_dialog_ids s).head?
                pending_new_messages_for_selected := 0 }, true))
    ∧ (∀ id pos, s.selected_dialog_id = some id →
        position (fun x => x == id) (visible_dialog_ids s) = some pos →
        (pos = 0 → select_prev s = (s, false))
        ∧ (pos ≠ 0 →
            select_prev s
              = ({ s with
                    selected_dialog_id := (visible_dialog_ids s)[pos - 1]?
                    message_scroll_from_bottom := 0
                    pending_new_messages_for_selected := 0 }, true))
        ∧ ((visible_dialog_ids s).length ≤ pos + 1 → select_next s = (s, false))
        ∧ (pos + 1 < (visible_dialog_ids s).length →
            select_next s
              = ({ s with
                    selected_dialog_id := (visible_dialog_ids s)[pos + 1]?
                    message_scroll_from_bottom := 0
                    pending_new_messages_for_selected := 0 }, true))) := by
  refine ⟨?_, ?_, ?_, ?_⟩
  · intro hv
    constructor <;> simp [select_prev, select_next, hv]
  · intro hv hsel
    cases hv' : visible_dialog_ids s with
    | nil => exact absurd hv' hv
    | cons v vs =>
      constructor <;> simp [select_prev, select_next, hv', hsel]
  · intro id hv hsel hmem
    have hpos := position_eq_none_of_not_mem hmem
    cases hv' : visible_dialog_ids s with
    | nil => exact absurd hv' hv
    | cons v vs =>
      rw [hv'] at hpos
      constructor <;> simp [select_prev, select_next, hv', hsel, hpos]
  · intro id pos hsel hpos
    have hlen := position_lt_length _ _ _ hpos
    cases hv' : visible_dialog_ids s with
    | nil =>
      rw [hv'] at hpos
      simp [position] at hpos
    | cons v vs =>
      rw [hv'] at hpos
      refine ⟨?_, ?_, ?_, ?_⟩
      · intro h0
        simp [select_prev, hv', hsel, hpos, h0]
      · intro hne
        simp [select_prev, hv', hsel, hpos, hne]
      · intro hedge
        have hc : (v :: vs).length = vs.length + 1 := rfl
        simp [select_next, hv', hsel, hpos, hedge]
        omega
      · intro hmid
        have hc : (v :: vs).length = vs.length + 1 := rfl
        have hlt : ¬((v :: vs).length ≤ pos + 1) := by omega
        simp [select_next, hv', hsel, hpos, hlt]
        omega

/-- Transport of the selection invariant along equal selection and equal
visible view. -/
theorem selection_invariant_of_eq {s t : AppState}
    (hsel : t.selected_dialog_id = s.selected_dialog_id)
    (hvis : visible_dialog_ids t = visible_dialog_ids s)
    (h : selection_invariant s) : selection_invariant t := by
  unfold selection_invariant at h ⊢
  rw [hsel, hvis]
  exact h

/-- Introduction rule for the selection invariant. -/
theorem selection_invariant_intro (t : AppState)
    (h1 : ∀ id, t.selected_dialog_id = some id → id ∈ visible_dialog_ids t)
    (h2 : t.selected_dialog_id = none → visible_dialog_ids t = []) :
    selection_invariant t := by
  unfold selection_invariant
  cases hsel : t.selected_dialog_id with
  | none => exact h2 hsel
  | some id => exact h1 id hsel

/-- A state whose selection is a member of an unchanged visible view
satisfies the selection invariant. -/
theorem selection_invariant_set_sel {s t : AppState} (id : Int)
    (hsel : t.selected_dialog_id = some id)
    (hvis : visible_dialog_ids t = visible_dialog_ids s)
    (hmem : id ∈ visible_dialog_ids s) : selection_invariant t := by
  unfold selection_invariant
  rw [hsel, hvis]
  exact hmem

/-- `ensure_selection` establishes the selection invariant on any state. -/
theorem ensure_selection_invariant (s : AppState) :
    selection_invariant (ensure_selection s) := by
  unfold ensure_selection
  by_cases he : (visible_dialog_ids s).isEmpty = true
  · rw [if_pos he]
    refine selection_invariant_intro _ (fun id hid => ?_) (fun _ => ?_)
    · exact absurd hid (by simp)
    · exact List.isEmpty_iff.mp he
  · rw [if_neg he]
    by_cases ha :
        s.selected_dialog_id.any (fun id => (visible_dialog_ids s).contains id) = true
    · rw [if_pos ha]
      refine selection_invariant_intro _ (fun id hid => ?_) (fun hid => ?_)
      · rw [hid] at ha
        simp only [Option.any_some] at ha
        exact List.elem_iff.mp ha
      · rw [hid] at ha
        simp [Option.any] at ha
    · rw [if_neg ha]
      refine selection_invariant_intro _ (fun id hid => ?_) (fun hid => ?_)
      · have hid' : (visible_dialog_ids s).head? = some id := hid
        rcases List.head?_eq_some_iff.mp hid' with ⟨ys, hys⟩
        have : id ∈ visible_dialog_ids s := by
          rw [hys]; exact List.mem_cons_self id ys
        exact this
      · have hid' : (visible_dialog_ids s).head? = none := hid
        have := List.head?_eq_none_iff.mp hid'
        exact absurd (List.isEmpty_iff.mpr this) he

/-- `ensure_selection` either clears the selection, keeps the state, or
snaps, zeroing the scroll offset and the pending indicator. -/
theorem ensure_selection_cases (s : AppState) :
    ensure_selection s = { s with selected_dialog_id := none }
    ∨ ensure_selection s = s
    ∨ ensure_selection s
        = { s with
            selected_dialog_id := (visible_dialog_ids s).head?
            message_scroll_from_bottom := 0
            pending_new_messages_for_selected := 0 } := by
  unfold ensure_selection
  by_cases he : (visible_dialog_ids s).isEmpty = true
  · rw [if_pos he]; exact Or.inl rfl
  · rw [if_neg he]
    by_cases ha :
        s.selected_dialog_id.any (fun id => (visible_dialog_ids s).contains id) = true
    · rw [if_pos ha]; exact Or.inr (Or.inl rfl)
    · rw [if_neg ha]; exact Or.inr (Or.inr rfl)

/-- `ensure_selection` preserves the pending/scroll invariant. -/
theorem ensure_selection_pending (s : AppState)
    (h : pending_scroll_invariant s) :
    pending_scroll_invariant (ensure_selection s) := by
  rcases ensure_selection_cases s with ht | ht | ht <;> rw [ht]
  · exact h
  · exact h
  · intro hp
    simp at hp

/-- The first component of `append_message_if_missing` agrees with its
argument on every field except the message store. -/
theorem append_message_if_missing_fields (s : AppState) (d : Int)
    (m : MessageSummary) :
    (append_message_if_missing s d m).1.selected_dialog_id = s.selected_dialog_id
    ∧ visible_dialog_ids (append_message_if_missing s d m).1 = visible_dialog_ids s
    ∧ (append_message_if_missing s d m).1.message_scroll_from_bottom
        = s.message_scroll_from_bottom
    ∧ (append_message_if_missing s d m).1.pending_new_messages_for_selected
        = s.pending_new_messages_for_selected
    ∧ (append_message_if_missing s d m).1.new_message_count_by_dialog
        = s.new_message_count_by_dialog := by
  unfold append_message_if_missing
  split <;> exact ⟨rfl, rfl, rfl, rfl, rfl⟩

/-- The result of `select_prev` is either the unchanged state, or a snap to
a visible id resetting only the pending indicator, or a move to a visible
id resetting the scroll offset and the pending indicator. -/
theorem select_prev_characterize (s : AppState) :
    (select_prev s).1 = s
    ∨ ∃ id, id ∈ visible_dialog_ids s
        ∧ ((select_prev s).1
            = { s with
                selected_dialog_id := some id
                pending_new_messages_for_selected := 0 }
          ∨ (select_prev s).1
            = { s with
                selected_dialog_id := some id
                message_scroll_from_bottom := 0
                pending_new_messages_for_selected := 0 }) := by
  by_cases he : (visible_dialog_ids s).isEmpty = true
  · left
    simp [select_prev, he]
  · cases hv : visible_dialog_ids s with
    | nil => exact absurd (List.isEmpty_iff.mpr hv) he
    | cons v vs =>
      cases hsel : s.selected_dialog_id with
      | none =>
        refine Or.inr ⟨v, List.mem_cons_self v vs, Or.inl ?_⟩
        simp [select_prev, hv, hsel]
      | some current =>
        cases hpos : position (fun id => id == current) (v :: vs) with
        | none =>
          refine Or.inr ⟨v, List.mem_cons_self v vs, Or.inl ?_⟩
          simp [select_prev, hv, hsel, hpos]
        | some pos =>
          by_cases h0 : pos = 0
          · left
            simp [select_prev, hv, hsel, hpos, h0]
          · have hlen := position_lt_length _ _ _ hpos
            have hb : pos - 1 < (v :: vs).length := by omega
            refine Or.inr ⟨(v :: vs)[pos - 1], List.getElem_mem hb, Or.inr ?_⟩
            simp [select_prev, hv, hsel, hpos, h0, List.getElem?_eq_getElem hb]

/-- The result of `select_next` is either the unchanged state, or a snap to
a visible id resetting only the pending indicator, or a move to a visible
id resetting the scroll offset and the pending indicator. -/
theorem select_next_characterize (s : AppState) :
    (select_next s).1 = s
    ∨ ∃ id, id ∈ visible_dialog_ids s
        ∧ ((select_next s).1
            = { s with
                selected_dialog_id := some id
                pending_new_messages_for_selected := 0 }
          ∨ (select_next s).1
            = { s with
                selected_dialog_id := some id
                message_scroll_from_bottom := 0
                pending_new_messages_for_selected := 0 }) := by
  by_cases he : (visible_dialog_ids s).isEmpty = true
  · left
    simp [select_next, he]
  · cases hv : visible_dialog_ids s with
    | nil => exact absurd (List.isEmpty_iff.mpr hv) he
    | cons v vs =>
      cases hsel : s.selected_dialog_id with
      | none =>
        refine Or.inr ⟨v, List.mem_cons_self v vs, Or.inl ?_⟩
        simp [select_next, hv, hsel]
      | some current =>
        cases hpos : position (fun id => id == current) (v :: vs) with
        | none =>
          refine Or.inr ⟨v, List.mem_cons_self v vs, Or.inl ?_⟩
          simp [select_next, hv, hsel, hpos]
        | some pos =>
          have hc : (v :: vs).length = vs.length + 1 := rfl
          by_cases hedge : (v :: vs).length ≤ pos + 1
          · left
            have hedge' : vs.length ≤ pos := by omega
            simp [select_next, hv, hsel, hpos, hedge']
          · have hb : pos + 1 < (v :: vs).length := by omega
            have hlt : ¬vs.length ≤ pos := by omega
            refine Or.inr ⟨(v :: vs)[pos + 1], List.getElem_mem hb, Or.inr ?_⟩
            simp [select_next, hv, hsel, hpos, hlt, List.getElem?_eq_getElem hb]

/-- Every StateStore operation preserves the selection invariant. -/
theorem apply_op_selection (op : Op) (s : AppState)
    (h : selection_invariant s) : selection_invariant (apply_op op s) := by
  cases op with
  | dialogsLoaded dialogs => exact ensure_selection_invariant _
  | messagesLoaded dialog_id messages =>
    simp only [apply_op, on_messages_loaded]
    split
    · exact selection_invariant_of_eq rfl rfl h
    · exact selection_invariant_of_eq rfl rfl h
  | messageSent dialog_id message =>
    refine selection_invariant_of_eq ?_ ?_ h
    · exact (append_message_if_missing_fields s dialog_id message).1
    · exact (append_message_if_missing_fields s dialog_id message).2.1
  | incomingMessage dialog_id message =>
    by_cases hdup :
        (s.messages_by_dialog dialog_id).any
          (fun existing => existing.id == message.id) = true
    · have ht : apply_op (Op.incomingMessage dialog_id message) s = s := by
        simp [apply_op, on_incoming_message, append_message_if_missing, hdup]
      rw [ht]; exact h
    · rw [Bool.not_eq_true] at hdup
      simp only [apply_op, on_incoming_message, append_message_if_missing, hdup,
        Bool.false_eq_true, if_false, Bool.not_true, Bool.not_false, if_true]
      split
      · split
        · exact selection_invariant_of_eq rfl rfl h
        · exact selection_invariant_of_eq rfl rfl h
      · exact selection_invariant_of_eq rfl rfl h
  | selectPrev =>
    show selection_invariant (select_prev s).1
    rcases select_prev_characterize s with ht | ⟨id, hmem, ht | ht⟩ <;> rw [ht]
    · exact h
    · exact selection_invariant_set_sel id rfl rfl hmem
    · exact selection_invariant_set_sel id rfl rfl hmem
  | selectNext =>
    show selection_invariant (select_next s).1
    rcases select_next_characterize s with ht | ⟨id, hmem, ht | ht⟩ <;> rw [ht]
    · exact h
    · exact selection_invariant_set_sel id rfl rfl hmem
    · exact selection_invariant_set_sel id rfl rfl hmem
  | focusNext => exact selection_invariant_of_eq rfl rfl h
  | focusPrev => exact selection_invariant_of_eq rfl rfl h
  | enterCompose => exact selection_invariant_of_eq rfl rfl h
  | exitCompose => exact selection_invariant_of_eq rfl rfl h
  | startSearch => exact selection_invariant_of_eq rfl rfl h
  | exitOrClearSearch =>
    simp only [apply_op, exit_or_clear_search]
    split
    · exact selection_invariant_of_eq rfl rfl h
    · exact ensure_selection_invariant _
  | toggleSortMode => exact ensure_selection_invariant _
  | insertChar ch =>
    cases hum : s.ui_mode <;> simp only [apply_op, insert_char, hum]
    · exact h
    · exact selection_invariant_of_eq rfl rfl h
    · exact ensure_selection_invariant _
  | backspaceKey =>
    cases hum : s.ui_mode <;> simp only [apply_op, backspace, hum]
    · exact h
    · exact selection_invariant_of_eq rfl rfl h
    · exact ensure_selection_invariant _
  | scrollUp => exact selection_invariant_of_eq rfl rfl h
  | scrollDown =>
    simp only [apply_op, scroll_messages_down]
    split
    · split
      · exact selection_invariant_of_eq rfl rfl h
      · exact selection_invariant_of_eq rfl rfl h
    · exact h

/-- Every StateStore operation preserves the pending/scroll invariant. -/
theorem apply_op_pending (op : Op) (s : AppState)
    (h : pending_scroll_invariant s) :
    pending_scroll_invariant (apply_op op s) := by
  cases op with
  | dialogsLoaded dialogs => exact ensure_selection_pending _ h
  | messagesLoaded dialog_id messages =>
    simp only [apply_op, on_messages_loaded]
    split
    · intro hp; simp at hp
    · exact h
  | messageSent dialog_id message =>
    intro hp
    have h4 := (append_message_if_missing_fields s dialog_id message).2.2.2.1
    have h3 := (append_message_if_missing_fields s dialog_id message).2.2.1
    show 0 < (apply_op (Op.messageSent dialog_id message) s).message_scroll_from_bottom
    have hp' : 0 < s.pending_new_messages_for_selected := by
      rw [← h4]; exact hp
    have := h hp'
    show 0 < (append_message_if_missing s dialog_id message).1.message_scroll_from_bottom
    rw [h3]; exact this
  | incomingMessage dialog_id message =>
    by_cases hdup :
        (s.messages_by_dialog dialog_id).any
          (fun existing => existing.id == message.id) = true
    · have ht : apply_op (Op.incomingMessage dialog_id message) s = s := by
        simp [apply_op, on_incoming_message, append_message_if_missing, hdup]
      rw [ht]; exact h
    · rw [Bool.not_eq_true] at hdup
      simp only [apply_op, on_incoming_message, append_message_if_missing, hdup,
        Bool.false_eq_true, if_false, Bool.not_true, Bool.not_false, if_true]
      split
      · split
        · rename_i hscroll
          intro _
          exact hscroll
        · exact h
      · exact h
  | selectPrev =>
    show pending_scroll_invariant (select_prev s).1
    rcases select_prev_characterize s with ht | ⟨id, hmem, ht | ht⟩ <;> rw [ht]
    · exact h
    · intro hp; simp at hp
    · intro hp; simp at hp
  | selectNext =>
    show pending_scroll_invariant (select_next s).1
    rcases select_next_characterize s with ht | ⟨id, hmem, ht | ht⟩ <;> rw [ht]
    · exact h
    · intro hp; simp at hp
    · intro hp; simp at hp
  | focusNext => exact h
  | focusPrev => exact h
  | enterCompose => exact h
  | exitCompose => exact h
  | startSearch => exact h
  | exitOrClearSearch =>
    simp only [apply_op, exit_or_clear_search]
    split
    · exact h
    · exact ensure_selection_pending _ h
  | toggleSortMode => exact ensure_selection_pending _ h
  | insertChar ch =>
    cases hum : s.ui_mode <;> simp only [apply_op, insert_char, hum]
    · exact h
    · exact h
    · exact ensure_selection_pending _ h
  | backspaceKey =>
    cases hum : s.ui_mode <;> simp only [apply_op, backspace, hum]
    · exact h
    · exact h
    · exact ensure_selection_pending _ h
  | scrollUp =>
    intro _
    exact Nat.succ_pos s.message_scroll_from_bottom
  | scrollDown =>
    simp only [apply_op, scroll_messages_down]
    split
    · split
      · intro hp; simp at hp
      · next h1 h2 =>
        intro _
        show 0 < s.message_scroll_from_bottom - 1
        omega
    · exact h

/-- Claim C6: in every state reachable by StateStore operations the
selected dialog id is present in the visible view, or absent exactly when
that view is empty; the invariant is re-established after every mutation
that can change the visible set. -/
theorem reachable_selection_invariant (s : AppState) (h : Reachable s) :
    selection_invariant s := by
  induction h with
  | init => exact (rfl : visible_dialog_ids AppState.new = [])
  | step t op hr ih => exact apply_op_selection op t ih

/-- Witness for `reachable_selection_invariant` at the initial state. -/
theorem reachable_selection_invariant_witness : selection_invariant AppState.new :=
  reachable_selection_invariant AppState.new Reachable.init

/-- Claim C8: in every state reachable by StateStore operations, a positive
pending indicator implies a positive scroll offset. -/
theorem reachable_pending_scroll (s : AppState) (h : Reachable s) :
    pending_scroll_invariant s := by
  induction h with
  | init => intro hp; simp [AppState.new] at hp
  | step t op hr ih => exact apply_op_pending op t ih

/-- Witness for `reachable_pending_scroll` at the initial state. -/
theorem reachable_pending_scroll_witness : pending_scroll_invariant AppState.new :=
  reachable_pending_scroll AppState.new Reachable.init

/-- Counterexample to claim C5 as stated: on a state with no selection and
scroll offset 5, `select_next` succeeds (snaps to the first visible id) yet
leaves the scroll offset at 5 instead of resetting it to 0. -/
theorem select_snap_counterexample :
    (select_next c5_state).2 = true
    ∧ (select_next c5_state).1.selected_dialog_id = some 1
    ∧ (select_next c5_state).1.message_scroll_from_bottom = 5 := by
  decide

/-- Concrete freshly-loaded two-dialog state from the spec's example. -/
def c5_witness_state : AppState :=
  { AppState.new with
      dialogs := [⟨1, "a"⟩, ⟨2, "b"⟩]
      selected_dialog_id := some 1 }

/-- Witness for `select_spec` at the spec's own example: selection 1 of
two visible dialogs; `select_prev` is a no-op, `select_next` moves. -/
theorem select_spec_witness :
    c5_witness_state.selected_dialog_id = some 1
    ∧ position (fun x => x == (1 : Int)) (visible_dialog_ids c5_witness_state) = some 0
    ∧ select_prev c5_witness_state = (c5_witness_state, false)
    ∧ 0 + 1 < (visible_dialog_ids c5_witness_state).length
    ∧ select_next c5_witness_state
        = ({ c5_witness_state with
              selected_dialog_id := (visible_dialog_ids c5_witness_state)[0 + 1]?
              message_scroll_from_bottom := 0
              pending_new_messages_for_selected := 0 }, true) :=
  ⟨rfl, by decide,
    ((select_spec c5_witness_state).2.2.2 1 0 rfl (by decide)).1 rfl,
    by decide,
    ((select_spec c5_witness_state).2.2.2 1 0 rfl (by decide)).2.2.2 (by decide)⟩
